import Mathlib

/-!
Verification of the air-quality-explorer dashboard script (website.py).

The script is a linear pandas/streamlit program: it loads a CSV into a
DataFrame, validates a fixed column list, applies range and membership
filters, and computes aggregates (mean/min/max, top-10, pivot-table means,
category counts, category encoding).  We embed the data model and each of
those operations shallowly: a DataFrame row becomes a `Row` record with the
columns the script touches, a DataFrame becomes a `List Row` (kept in order,
as pandas keeps row order), and each pandas operation used by the script
becomes the corresponding pure list function.  Numeric AQI columns are
integers (the script itself coerces the slider bounds with `int(...)`);
latitude/longitude only ever matter for presence (`dropna(subset=['lat','lng'])`),
so they are modelled as `Option Int`.  Means are exact rationals.
-/

/-- One monitoring observation: the columns of the CSV that the script uses.
`lat`/`lng` are optional because `load_data` drops rows where they are missing. -/
structure Row where
  city : String
  country : String
  lat : Option Int
  lng : Option Int
  aqi : Int
  co : Int
  ozone : Int
  no2 : Int
  pm25 : Int
  category : String
deriving DecidableEq, Repr

/-- A parsed DataFrame: the column-name header plus the rows.
Embeds the result of `pd.read_csv`. -/
structure RawFrame where
  cols : List String
  rows : List Row
deriving DecidableEq, Repr

/-- `pollutant_dict` (website.py lines 58-64): human-readable pollutant name to
the accessor for the corresponding column. -/
def pollutant_dict : List (String × (Row → Int)) :=
  [("Overall AQI", Row.aqi),
   ("Carbon Monoxide", Row.co),
   ("Ozone", Row.ozone),
   ("Nitrogen Dioxide", Row.no2),
   ("PM2.5", Row.pm25)]

/-- Keep-first-occurrence duplicate removal, the semantics of
`df.drop_duplicates()` (pandas keeps the first of each group of exact
duplicates).  `seen` accumulates the rows already emitted. -/
def dropDupAux {α : Type} [DecidableEq α] (seen : List α) : List α → List α
  | [] => []
  | r :: rs =>
      if r ∈ seen then dropDupAux seen rs
      else r :: dropDupAux (r :: seen) rs

/-- `df.drop_duplicates()` (website.py line 31). -/
def dropDuplicates {α : Type} [DecidableEq α] (l : List α) : List α :=
  dropDupAux [] l

/-- `load_data` (website.py lines 24-35): on a parse error report and return an
empty DataFrame; otherwise drop exact-duplicate rows, drop rows with missing
lat/lng, and strip whitespace from the column headers (in that order). -/
def load_data (input : Except String RawFrame) : RawFrame :=
  match input with
  | Except.error _ => ⟨[], []⟩
  | Except.ok df =>
      ⟨(df.cols.map (fun c => c.trim)),
       (dropDuplicates df.rows).filter (fun r => r.lat.isSome && r.lng.isSome)⟩

/-- `required_cols` (website.py line 41): the five pollutant value columns the
script actually validates. -/
def required_cols : List String :=
  ["AQI Value", "CO AQI Value", "Ozone AQI Value", "NO2 AQI Value", "PM2.5 AQI Value"]

/-- `missing` (website.py line 42): the required columns absent from the data. -/
def missingCols (cols : List String) : List String :=
  required_cols.filter (fun c => decide (c ∉ cols))

/-- Lines 43-45: `st.stop()` runs (the session halts) exactly when `missing` is
non-empty (Python truthiness of the list). -/
def validationHalts (cols : List String) : Bool :=
  !(missingCols cols).isEmpty

/-- `filter_data` (website.py lines 85-86): keep rows whose pollutant value is
within the inclusive range. -/
def filter_data (df : List Row) (pollutant : Row → Int) (low high : Int) : List Row :=
  df.filter (fun r => decide (pollutant r ≥ low) && decide (pollutant r ≤ high))

/-- The view `filtered` (website.py lines 89-90): range filter, then the
country membership filter.  Note line 90 applies `isin(countries)`
unconditionally, with no emptiness guard. -/
def filteredView (data : List Row) (pollutant : Row → Int) (low high : Int)
    (countries : List String) : List Row :=
  (filter_data data pollutant low high).filter (fun r => decide (r.country ∈ countries))

/-- The view `filtered_data` (website.py lines 150-156): starting from the full
dataset, filter by city only when the city selection is non-empty, then by
category only when the category selection is non-empty (Python `if sel:`). -/
def mapView (data : List Row) (selected_cities selected_categories : List String) :
    List Row :=
  let d1 := if selected_cities.isEmpty then data
            else data.filter (fun r => decide (r.city ∈ selected_cities))
  if selected_categories.isEmpty then d1
  else d1.filter (fun r => decide (r.category ∈ selected_categories))

/-- The same two membership filters applied in the opposite order, used to
state commutativity. -/
def mapViewSwapped (data : List Row) (selected_cities selected_categories : List String) :
    List Row :=
  let d1 := if selected_categories.isEmpty then data
            else data.filter (fun r => decide (r.category ∈ selected_categories))
  if selected_cities.isEmpty then d1
  else d1.filter (fun r => decide (r.city ∈ selected_cities))

/-- Concrete sample rows for counterexamples and witnesses. -/
def row1 : Row :=
  ⟨"Boston", "United States of America", some 42, some (-71), 50, 1, 30, 5, 40, "Good"⟩

def row2 : Row :=
  ⟨"Delhi", "India", some 28, some 77, 180, 3, 60, 20, 170, "Unhealthy"⟩

def sampleData : List Row := [row1, row2]

-- C3 first: the numeric range predicate.

/-- C3: for valid bounds low ≤ high, every row kept by filter_data satisfies
low ≤ value ≤ high, and every row of the input satisfying it is kept. -/
theorem filter_data_range_correct (df : List Row) (pollutant : Row → Int)
    (low high : Int) (hlh : low ≤ high) :
    (∀ r ∈ filter_data df pollutant low high, low ≤ pollutant r ∧ pollutant r ≤ high) ∧
    (∀ r ∈ df, low ≤ pollutant r ∧ pollutant r ≤ high →
      r ∈ filter_data df pollutant low high) := by
  constructor
  · intro r hr
    have h := (List.mem_filter.mp hr).2
    simp only [Bool.and_eq_true, decide_eq_true_iff, ge_iff_le] at h
    exact ⟨h.1, h.2⟩
  · intro r hr hcond
    refine List.mem_filter.mpr ⟨hr, ?_⟩
    simp only [Bool.and_eq_true, decide_eq_true_iff, ge_iff_le]
    exact ⟨hcond.1, hcond.2⟩

/-- Witness for C3 at a concrete dataset and range. -/
theorem filter_data_range_correct_witness :
    (0 : Int) ≤ 100 ∧
    ((∀ r ∈ filter_data sampleData Row.aqi 0 100, 0 ≤ r.aqi ∧ r.aqi ≤ 100) ∧
     (∀ r ∈ sampleData, 0 ≤ r.aqi ∧ r.aqi ≤ 100 →
       r ∈ filter_data sampleData Row.aqi 0 100)) :=
  ⟨by decide, filter_data_range_correct sampleData Row.aqi 0 100 (by decide)⟩

-- C1: empty-selection semantics.

/-- C1 counterexample: with an empty country selection, the country membership
filter at line 90 removes every row (isin of an empty set keeps nothing), so an
empty selected_countries is not a pass-through: here the range predicate alone
keeps both sample rows, yet the view is empty. -/
theorem empty_country_selection_not_passthrough :
    filteredView sampleData Row.aqi 0 500 [] = [] ∧
    filter_data sampleData Row.aqi 0 500 = sampleData ∧
    sampleData ≠ [] := by
  refine ⟨rfl, rfl, ?_⟩
  simp [sampleData]

/-- C1 amended: an empty selected_cities set and an empty selected_categories
set are pass-throughs (the guarded filters at lines 152-156 are skipped), and
filtering by the full set of categories present in the data also excludes no
rows; but an empty selected_countries set yields the empty view (line 90
applies the membership filter unconditionally). -/
theorem empty_selection_semantics (data : List Row) (pollutant : Row → Int)
    (low high : Int) (cities cats : List String) :
    filteredView data pollutant low high [] = [] ∧
    mapView data [] cats =
      (if cats.isEmpty then data
       else data.filter (fun r => decide (r.category ∈ cats))) ∧
    mapView data cities [] =
      (if cities.isEmpty then data
       else data.filter (fun r => decide (r.city ∈ cities))) ∧
    data.filter (fun r => decide (r.category ∈ data.map Row.category)) = data := by
  refine ⟨?_, ?_, ?_, ?_⟩
  · apply List.filter_eq_nil_iff.mpr
    intro r _
    simp
  · simp [mapView]
  · simp [mapView]
  · apply List.filter_eq_self.mpr
    intro r hr
    simpa using List.mem_map_of_mem Row.category hr

-- C2: conjunction and commutativity of the filter pipeline.

/-- C2: each filtered view is exactly the rows satisfying the conjunction of
its predicates, and applying the independent predicates in either order yields
the same view. -/
theorem filter_conjunction_comm (data : List Row) (pollutant : Row → Int)
    (low high : Int) (countries cities cats : List String) :
    filteredView data pollutant low high countries =
      data.filter (fun r =>
        (decide (pollutant r ≥ low) && decide (pollutant r ≤ high)) &&
          decide (r.country ∈ countries)) ∧
    filteredView data pollutant low high countries =
      filter_data (data.filter (fun r => decide (r.country ∈ countries)))
        pollutant low high ∧
    mapView data cities cats =
      data.filter (fun r =>
        (cities.isEmpty || decide (r.city ∈ cities)) &&
          (cats.isEmpty || decide (r.category ∈ cats))) ∧
    mapView data cities cats = mapViewSwapped data cities cats := by
  have hmap : mapView data cities cats =
      data.filter (fun r =>
        (cities.isEmpty || decide (r.city ∈ cities)) &&
          (cats.isEmpty || decide (r.category ∈ cats))) := by
    by_cases h1 : cities.isEmpty <;> by_cases h2 : cats.isEmpty <;>
      simp [mapView, h1, h2, List.filter_filter, Bool.and_comm]
  have hswap : mapViewSwapped data cities cats =
      data.filter (fun r =>
        (cities.isEmpty || decide (r.city ∈ cities)) &&
          (cats.isEmpty || decide (r.category ∈ cats))) := by
    by_cases h1 : cities.isEmpty <;> by_cases h2 : cats.isEmpty <;>
      simp [mapViewSwapped, h1, h2, List.filter_filter, Bool.and_comm]
  refine ⟨?_, ?_, hmap, hmap.trans hswap.symm⟩
  · simp only [filteredView, filter_data, List.filter_filter]
    apply List.filter_congr
    intro r _
    rw [Bool.and_comm]
  · simp only [filteredView, filter_data, List.filter_filter]
    apply List.filter_congr
    intro r _
    rw [Bool.and_comm]

-- C4: schema validation.

/-- The ten columns the spec lists as required inputs; the script only
validates the last five (the pollutant value columns). -/
def claimedRequiredCols : List String :=
  ["City", "Country", "lat", "lng", "AQI Value", "CO AQI Value",
   "Ozone AQI Value", "NO2 AQI Value", "PM2.5 AQI Value", "AQI Category"]

/-- A column set lacking the City column (it has the other nine claimed
columns), used to refute C4. -/
def colsNoCity : List String :=
  ["Country", "lat", "lng", "AQI Value", "CO AQI Value",
   "Ozone AQI Value", "NO2 AQI Value", "PM2.5 AQI Value", "AQI Category"]

/-- C4 counterexample: a dataset whose columns lack City (one of the claimed
required columns) passes validation — the session does not halt — because
the script only checks the five pollutant value columns. -/
theorem missing_city_passes_validation :
    "City" ∉ colsNoCity ∧ "City" ∈ claimedRequiredCols ∧
    validationHalts colsNoCity = false := by
  refine ⟨by decide, by decide, ?_⟩
  rfl

/-- C4 amended: the validation step halts the session, naming the missing
columns, exactly when one of the five pollutant value columns of
required_cols is absent; the other five claimed columns (City, Country, lat,
lng, AQI Category) are not checked.  When all five checked columns are
present, validation passes. -/
theorem schema_validation_checked_cols (cols : List String) :
    (validationHalts cols = true ↔ ∃ c ∈ required_cols, c ∉ cols) ∧
    (∀ c ∈ missingCols cols, c ∈ required_cols ∧ c ∉ cols) ∧
    ("City" ∉ required_cols ∧ "Country" ∉ required_cols ∧
     "lat" ∉ required_cols ∧ "lng" ∉ required_cols ∧
     "AQI Category" ∉ required_cols) := by
  have hiff : validationHalts cols = true ↔ missingCols cols ≠ [] := by
    cases h : missingCols cols <;> simp [validationHalts, h]
  refine ⟨?_, ?_, by decide, by decide, by decide, by decide, by decide⟩
  · constructor
    · intro hv
      obtain ⟨c, hc⟩ := List.exists_mem_of_ne_nil _ (hiff.mp hv)
      have := List.mem_filter.mp hc
      exact ⟨c, this.1, by simpa using this.2⟩
    · rintro ⟨c, hmem, habs⟩
      exact hiff.mpr
        (List.ne_nil_of_mem (List.mem_filter.mpr ⟨hmem, by simpa using habs⟩))
  · intro c hc
    have := List.mem_filter.mp hc
    exact ⟨this.1, by simpa using this.2⟩

-- C5: load_data.

/-- Membership in the keep-first dedup: an element appears iff it was in the
input and not among the already-seen elements. -/
theorem mem_dropDupAux {α : Type} [DecidableEq α] (seen l : List α) (a : α) :
    a ∈ dropDupAux seen l ↔ a ∈ l ∧ a ∉ seen := by
  induction l generalizing seen with
  | nil => simp [dropDupAux]
  | cons r rs ih =>
      by_cases h : r ∈ seen
      · simp only [dropDupAux, if_pos h, ih, List.mem_cons]
        constructor
        · exact fun ⟨h1, h2⟩ => ⟨Or.inr h1, h2⟩
        · rintro ⟨rfl | h1, h2⟩
          · exact absurd h h2
          · exact ⟨h1, h2⟩
      · simp only [dropDupAux, if_neg h, List.mem_cons, ih, not_or]
        by_cases har : a = r
        · subst har
          simp [h]
        · simp [har]

/-- The keep-first dedup has no duplicates. -/
theorem nodup_dropDupAux {α : Type} [DecidableEq α] (seen l : List α) :
    (dropDupAux seen l).Nodup := by
  induction l generalizing seen with
  | nil => simp [dropDupAux]
  | cons r rs ih =>
      by_cases h : r ∈ seen
      · simpa [dropDupAux, if_pos h] using ih seen
      · simp only [dropDupAux, if_neg h]
        refine List.nodup_cons.mpr ⟨?_, ih (r :: seen)⟩
        intro hmem
        exact ((mem_dropDupAux (r :: seen) rs r).mp hmem).2 (List.mem_cons_self r seen)

/-- C5: on a parse error load_data reports it and returns the empty frame;
on success the returned rows are exactly the parsed rows that carry both
coordinates, with exact duplicates removed (no duplicate rows remain), and
the column headers are whitespace-trimmed. -/
theorem load_data_correct (df : RawFrame) (e : String) (r : Row) :
    load_data (Except.error e) = ⟨[], []⟩ ∧
    (load_data (Except.ok df)).cols = df.cols.map (fun c => c.trim) ∧
    (load_data (Except.ok df)).rows.Nodup ∧
    (r ∈ (load_data (Except.ok df)).rows ↔
      r ∈ df.rows ∧ r.lat.isSome ∧ r.lng.isSome) := by
  refine ⟨rfl, rfl, ?_, ?_⟩
  · exact List.Nodup.filter _ (nodup_dropDupAux [] df.rows)
  · simp [load_data, List.mem_filter, dropDuplicates, mem_dropDupAux,
      and_assoc]

-- C9: the categorical encoder.

/-- category_map (website.py lines 128-129): the fixed six-entry severity
table. -/
def category_map : List (String × Nat) :=
  [("Good", 1), ("Moderate", 2), ("Unhealthy for Sensitive Groups", 3),
   ("Unhealthy", 4), ("Very Unhealthy", 5), ("Hazardous", 6)]

/-- Line 130, the Series.map semantics applied per value: look the category
text up in category_map; text absent from the table becomes a missing value
(NaN in pandas, none here). -/
def encode (s : String) : Option Nat :=
  category_map.lookup s

/-- C9: each of the six category texts encodes to its severity code, and any
text not in the table encodes to the missing-value sentinel (none) rather
than failing. -/
theorem encode_table_correct :
    encode "Good" = some 1 ∧ encode "Moderate" = some 2 ∧
    encode "Unhealthy for Sensitive Groups" = some 3 ∧
    encode "Unhealthy" = some 4 ∧ encode "Very Unhealthy" = some 5 ∧
    encode "Hazardous" = some 6 ∧
    ∀ s : String, s ∉ category_map.map Prod.fst → encode s = none := by
  refine ⟨rfl, rfl, rfl, rfl, rfl, rfl, ?_⟩
  intro s hs
  simp only [category_map, List.map, List.mem_cons, List.not_mem_nil,
    or_false, not_or] at hs
  obtain ⟨h1, h2, h3, h4, h5, h6⟩ := hs
  simp [encode, category_map, List.lookup,
    beq_eq_false_iff_ne.mpr h1, beq_eq_false_iff_ne.mpr h2,
    beq_eq_false_iff_ne.mpr h3, beq_eq_false_iff_ne.mpr h4,
    beq_eq_false_iff_ne.mpr h5, beq_eq_false_iff_ne.mpr h6]

/-- Witness for C9 at a concrete unknown category text. -/
theorem encode_table_correct_witness :
    "Smoggy" ∉ category_map.map Prod.fst ∧ encode "Smoggy" = none :=
  ⟨by decide, encode_table_correct.2.2.2.2.2.2 "Smoggy" (by decide)⟩

-- C8: behavior of the aggregates on an empty view.

/-- Mean of a numeric Series (pandas `Series.mean`): NaN — modelled as none —
on an empty series, otherwise the exact arithmetic mean. -/
def seriesMean (l : List Int) : Option ℚ :=
  if l.isEmpty then none else some ((l.sum : ℚ) / (l.length : ℚ))

/-- `get_stats` (website.py lines 97-98): mean, min and max of the chosen
column over the view; each is a missing value (none) when the view is empty,
as in pandas, rather than an exception. -/
def get_stats (df : List Row) (col : Row → Int) :
    Option ℚ × Option Int × Option Int :=
  (seriesMean (df.map col), (df.map col).min?, (df.map col).max?)

/-- Insertion-order-preserving update of an association list, the semantics of
a Python dict assignment `d[c] = k`. -/
def setCount : List (String × Nat) → String → Nat → List (String × Nat)
  | [], c, k => [(c, k)]
  | (c0, k0) :: rest, c, k =>
      if c0 = c then (c0, k) :: rest else (c0, k0) :: setCount rest c k

/-- `cat_counts` (website.py lines 135-138): iterate over the rows of the
view, incrementing a per-category counter (`d.get(cat, 0) + 1`). -/
def cat_counts (view : List Row) : List (String × Nat) :=
  view.foldl
    (fun acc r => setCount acc r.category (((acc.lookup r.category).getD 0) + 1))
    []

-- C6: top-n selection (pandas nlargest).

/-- The comparison used by `nlargest(n, col)` with its default keep policy:
strictly larger values first, ties kept in original row order.  The Nat
component is the original row position. -/
def rankRel (key : Row → Int) (p q : Nat × Row) : Prop :=
  key q.2 < key p.2 ∨ (key p.2 = key q.2 ∧ p.1 ≤ q.1)

instance (key : Row → Int) : DecidableRel (rankRel key) := fun p q => by
  unfold rankRel
  exact inferInstance

instance (key : Row → Int) : IsTotal (Nat × Row) (rankRel key) := by
  constructor
  intro p q
  rcases lt_trichotomy (key p.2) (key q.2) with h | h | h
  · exact Or.inr (Or.inl h)
  · rcases Nat.le_total p.1 q.1 with hle | hle
    · exact Or.inl (Or.inr ⟨h, hle⟩)
    · exact Or.inr (Or.inr ⟨h.symm, hle⟩)
  · exact Or.inl (Or.inl h)

instance (key : Row → Int) : IsTrans (Nat × Row) (rankRel key) := by
  constructor
  rintro p q s (hpq | ⟨hpq, hpq2⟩) (hqs | ⟨hqs, hqs2⟩)
  · exact Or.inl (lt_trans hqs hpq)
  · exact Or.inl (hqs ▸ hpq)
  · exact Or.inl (hpq ▸ hqs)
  · exact Or.inr ⟨hpq.trans hqs, le_trans hpq2 hqs2⟩

/-- `filtered.nlargest(n, col)` keeping the original row indices: annotate
each row with its position, stably sort by value descending (ties by
position), and take the first n. -/
def top_n_pairs (view : List Row) (key : Row → Int) (n : Nat) :
    List (Nat × Row) :=
  (List.insertionSort (rankRel key) view.enum).take n

/-- `top10 = filtered.nlargest(10, pollutant_col)` (website.py line 106),
generalized over n: the up-to-n rows with the largest values of the column,
in descending order, ties in original row order. -/
def top_n (view : List Row) (key : Row → Int) (n : Nat) : List Row :=
  (top_n_pairs view key n).map Prod.snd

/-- Projecting the position annotations away returns the original rows. -/
theorem enumFrom_map_snd {α : Type} (n : Nat) (l : List α) :
    (List.enumFrom n l).map Prod.snd = l := by
  induction l generalizing n with
  | nil => rfl
  | cons a l ih => simp [List.enumFrom, ih]

/-- C6: top_n returns min(n, len(view)) rows, all drawn from the view, in
descending order of the column value, with ties between equal values kept in
original row order (stable). -/
theorem top_n_correct (view : List Row) (key : Row → Int) (n : Nat) :
    (top_n view key n).length = min n view.length ∧
    top_n view key n ⊆ view ∧
    (top_n view key n).Sorted (fun a b => key b ≤ key a) ∧
    (top_n_pairs view key n).Pairwise
      (fun p q => key p.2 = key q.2 → p.1 ≤ q.1) ∧
    top_n view key n = (top_n_pairs view key n).map Prod.snd := by
  have hperm := List.perm_insertionSort (rankRel key) view.enum
  have hsorted := List.sorted_insertionSort (rankRel key) view.enum
  have hpair : (top_n_pairs view key n).Pairwise (rankRel key) :=
    List.Pairwise.sublist (List.take_sublist n _) hsorted
  refine ⟨?_, ?_, ?_, ?_, rfl⟩
  · simp only [top_n, top_n_pairs, List.length_map, List.length_take,
      hperm.length_eq, List.enum_length]
  · intro a ha
    obtain ⟨p, hp, rfl⟩ := List.mem_map.mp ha
    have hp2 : p ∈ List.insertionSort (rankRel key) view.enum :=
      (List.take_sublist n _).mem hp
    have hp3 : p ∈ view.enum := hperm.mem_iff.mp hp2
    have := List.mem_map_of_mem Prod.snd hp3
    rwa [List.enum, enumFrom_map_snd] at this
  · apply List.pairwise_map.mpr
    apply hpair.imp
    rintro p q (h | ⟨h, _⟩)
    · exact le_of_lt h
    · exact le_of_eq h.symm
  · apply hpair.imp
    rintro p q (h | ⟨h1, h2⟩) heq
    · exact absurd (heq ▸ h) (lt_irrefl _)
    · exact h2

-- C8 theorem (uses top_n and the aggregates above).

/-- C8: when a filter combination produces an empty view, the aggregates
degrade gracefully: get_stats returns missing values (none) for mean, min and
max, the top-n selection is the empty sequence, and the per-category counts
are the empty mapping — none of them fails. -/
theorem empty_view_aggregates (data : List Row) (pollutant : Row → Int)
    (low high : Int) (countries : List String) (col : Row → Int)
    (h : filteredView data pollutant low high countries = []) :
    get_stats (filteredView data pollutant low high countries) col =
      (none, none, none) ∧
    top_n (filteredView data pollutant low high countries) col 10 = [] ∧
    cat_counts (filteredView data pollutant low high countries) = [] := by
  rw [h]
  exact ⟨rfl, rfl, rfl⟩

/-- Witness for C8: the sample dataset with an empty country selection
produces an empty view, on which all three aggregates are empty/NA. -/
theorem empty_view_aggregates_witness :
    filteredView sampleData Row.aqi 0 500 [] = [] ∧
    (get_stats (filteredView sampleData Row.aqi 0 500 []) Row.aqi =
       (none, none, none) ∧
     top_n (filteredView sampleData Row.aqi 0 500 []) Row.aqi 10 = [] ∧
     cat_counts (filteredView sampleData Row.aqi 0 500 []) = []) :=
  ⟨rfl, empty_view_aggregates sampleData Row.aqi 0 500 [] Row.aqi rfl⟩

-- C7: the pivot-table grouped mean.

/-- The distinct countries of the view, in ascending order: pandas
pivot_table groups by the index column and sorts the group keys. -/
def group_keys (view : List Row) : List String :=
  List.insertionSort (fun a b => a ≤ b) (dropDuplicates (view.map Row.country))

/-- The arithmetic mean of the value column over the rows of one country. -/
def groupMeanOf (view : List Row) (val : Row → Int) (c : String) : ℚ :=
  (((view.filter (fun r => decide (r.country = c))).map val).sum : ℚ) /
    ((view.filter (fun r => decide (r.country = c))).length : ℚ)

/-- The pivot table (website.py line 122):
`filtered.pivot_table(index='Country', values=col, aggfunc='mean').reset_index()` —
one (country, mean) entry per distinct country of the view, keys sorted. -/
def group_mean (view : List Row) (val : Row → Int) : List (String × ℚ) :=
  (group_keys view).map (fun c => (c, groupMeanOf view val c))

/-- The group keys of the pivot output are exactly its first components. -/
theorem group_mean_keys (view : List Row) (val : Row → Int) :
    (group_mean view val).map Prod.fst = group_keys view := by
  rw [group_mean, List.map_map]
  exact List.map_id _

/-- C7: the pivot output has exactly one entry per distinct country present in
the view — no absent key appears and no present key is missing — each paired
with the arithmetic mean of the value column over that country's rows, and the
keys are in ascending (hence deterministic) order. -/
theorem group_mean_correct (view : List Row) (val : Row → Int) (c : String)
    (m : ℚ) :
    ((group_mean view val).map Prod.fst).Nodup ∧
    ((group_mean view val).map Prod.fst).Sorted (fun a b => a ≤ b) ∧
    (c ∈ (group_mean view val).map Prod.fst ↔ c ∈ view.map Row.country) ∧
    ((c, m) ∈ group_mean view val ↔
      c ∈ view.map Row.country ∧ m = groupMeanOf view val c) := by
  have hperm := List.perm_insertionSort (fun a b : String => a ≤ b)
    (dropDuplicates (view.map Row.country))
  have hkeymem : ∀ x : String,
      x ∈ group_keys view ↔ x ∈ view.map Row.country := by
    intro x
    rw [group_keys, hperm.mem_iff, dropDuplicates, mem_dropDupAux]
    simp
  refine ⟨?_, ?_, ?_, ?_⟩
  · rw [group_mean_keys]
    exact hperm.nodup_iff.mpr (nodup_dropDupAux [] _)
  · rw [group_mean_keys]
    exact List.sorted_insertionSort _ _
  · rw [group_mean_keys]
    exact hkeymem c
  · rw [group_mean]
    constructor
    · intro hmem
      obtain ⟨k, hk, hkeq⟩ := List.mem_map.mp hmem
      have h1 : k = c := congrArg Prod.fst hkeq
      have h2 : groupMeanOf view val k = m := congrArg Prod.snd hkeq
      subst h1
      exact ⟨(hkeymem k).mp hk, h2.symm⟩
    · rintro ⟨hmem, rfl⟩
      exact List.mem_map_of_mem _ ((hkeymem c).mpr hmem)

-- C10: the script's execution halts with a NameError at the top-10 chart.

/-- The names bound by the import block (website.py lines 11-15):
streamlit as st, pandas as pd, pydeck as pdk, seaborn as sns,
plotly.express as px.  matplotlib.pyplot is never imported, so plt is
not among them. -/
def boundNames : List String := ["st", "pd", "pdk", "sns", "px"]

/-- The multiselect default for countries (website.py line 81); streamlit
raises StreamlitAPIException when a default value is not among the options. -/
def multiselect_defaults : List String :=
  ["United States of America", "China", "Brazil", "Italy",
   "Russian Federation", "France"]

/-- The slider statement (website.py lines 70-75): data[pollutant_col] raises
KeyError when the column is absent, and int(data[col].min()) raises ValueError
when the column is empty (int of NaN). -/
def slider_step (pcol : String) (df : RawFrame) : Option (String × String) :=
  if df.cols.contains pcol then
    if df.rows.isEmpty then
      some ("ValueError", "cannot convert float NaN to integer")
    else none
  else some ("KeyError", pcol)

/-- The countries multiselect (website.py lines 78-82): data['Country'] raises
KeyError when the column is absent, and the six-country default raises
StreamlitAPIException when one of them is not among the options
(the distinct Country values of the data). -/
def countries_step (df : RawFrame) : Option (String × String) :=
  if df.cols.contains "Country" then
    if multiselect_defaults.all (fun c => (df.rows.map Row.country).contains c)
    then none
    else some ("StreamlitAPIException", "default value must exist in options")
  else some ("KeyError", "Country")

/-- A statement that subscripts the DataFrame with the given column names:
KeyError on the first absent one, otherwise success. -/
def column_step (needed : List String) (df : RawFrame) :
    Option (String × String) :=
  match needed.find? (fun c => !df.cols.contains c) with
  | some c => some ("KeyError", c)
  | none => none

/-- A statement whose first expression evaluates the given module name:
NameError when the name is not bound by the import block, otherwise run the
rest of the statement. -/
def name_step (nm : String) (next : RawFrame → Option (String × String))
    (df : RawFrame) : Option (String × String) :=
  if boundNames.contains nm then next df else some ("NameError", nm)

/-- The top-level statements of the script after schema validation, in source
order, each with the error its own code can raise (the selected pollutant
column is pcol): the slider coerces the column min/max with int (lines 70-75),
the countries multiselect reads data['Country'] and checks its defaults
(lines 78-82), line 90 subscripts with 'Country', the top-10 bar chart
(line 107) and histogram (line 116) reference the never-imported plt, the
pivot groups by 'Country' (line 122), the encoder and counts read
'AQI Category' and 'City' (lines 127-139), the map filters read 'City' and
'AQI Category' (lines 142-147), and the bubble map references px and the
coordinate/value columns (lines 159-171). -/
def scriptSteps (pcol : String) :
    List (String × (RawFrame → Option (String × String))) :=
  [("sidebar_slider", slider_step pcol),
   ("countries_multiselect", countries_step),
   ("apply_filters", column_step ["Country"]),
   ("data_table", fun _ => none),
   ("summary_metrics", fun _ => none),
   ("top10_bar_chart", name_step "plt" (fun _ => none)),
   ("histogram", name_step "plt" (fun _ => none)),
   ("pivot_table", column_step ["Country"]),
   ("category_encoding", column_step ["AQI Category", "City"]),
   ("category_counts", column_step ["AQI Category"]),
   ("map_filters", column_step ["City", "AQI Category"]),
   ("bubble_map",
     name_step "px" (column_step ["lat", "lng", "City", "PM2.5 AQI Value",
       "AQI Category"])),
   ("csv_export", fun _ => none)]

/-- Run the statements in order: the first statement that raises stops the
script there, and nothing after it runs.  Returns the statements that
completed and the failing statement with its exception kind and detail. -/
def runSteps (df : RawFrame) :
    List (String × (RawFrame → Option (String × String))) →
      List String × Option (String × String × String)
  | [] => ([], none)
  | (step, f) :: rest =>
      match f df with
      | some (kind, detail) => ([], some (step, kind, detail))
      | none =>
          let res := runSteps df rest
          (step :: res.1, res.2)

/-- The whole session on a loaded dataset, with pcol the selected pollutant
column: schema validation first (halting when a checked column is missing),
then the statements of the script. -/
def runScript (pcol : String) (df : RawFrame) :
    List String × Option (String × String × String) :=
  if validationHalts df.cols then
    ([], some ("schema_validation", "Halt", "missing required columns"))
  else runSteps df (scriptSteps pcol)

/-- When validation passes, every checked column is present in the data. -/
theorem validation_pass_contains (cols : List String)
    (h : validationHalts cols = false) :
    ∀ c ∈ required_cols, cols.contains c = true := by
  intro c hc
  have hnil : missingCols cols = [] := by
    cases h2 : missingCols cols with
    | nil => rfl
    | cons x xs => rw [validationHalts, h2] at h; simp at h
  have := List.filter_eq_nil_iff.mp hnil c hc
  simp only [decide_eq_true_iff, not_not] at this
  exact List.elem_iff.mpr this

/-- A dataset that loads successfully (it has lat/lng) and passes schema
validation (it has the five checked columns) but has no Country column:
used to refute C10 as universally stated. -/
def noCountryFrame : RawFrame := ⟨"lat" :: "lng" :: required_cols, sampleData⟩

/-- C10 counterexample: a successfully loaded, schema-validated dataset on
which the script does NOT reach the top-10 bar chart: with no Country column,
line 78 (data['Country'].unique()) raises KeyError at the countries
multiselect, before the plt reference at line 107, so no NameError occurs. -/
theorem schema_valid_fails_before_chart :
    validationHalts noCountryFrame.cols = false ∧
    (runScript "AQI Value" noCountryFrame).2 =
      some ("countries_multiselect", "KeyError", "Country") ∧
    (runScript "AQI Value" noCountryFrame).1 = ["sidebar_slider"] ∧
    (runScript "AQI Value" noCountryFrame).2 ≠
      some ("top10_bar_chart", "NameError", "plt") := by
  refine ⟨rfl, rfl, rfl, by decide⟩

/-- C10 amended: schema validation alone does not guarantee reaching the
top-10 chart (the sidebar statements can raise first); but on every
schema-validated dataset whose sidebar statements succeed — the selected
pollutant column is one of the five validated ones, the dataset is non-empty,
it has a Country column, and its Country values include the six multiselect
defaults — execution reaches the top-10 bar-chart statement, where plt is
unbound (matplotlib.pyplot is never imported), raises NameError there, and no
later component (histogram, pivot table, category encoding, category counts,
map, CSV export) ever runs. -/
theorem script_halts_at_top10 (pcol : String) (df : RawFrame)
    (hval : validationHalts df.cols = false)
    (hpcol : pcol ∈ required_cols)
    (hrows : df.rows.isEmpty = false)
    (hcountry : df.cols.contains "Country" = true)
    (hdefaults : multiselect_defaults.all
      (fun c => (df.rows.map Row.country).contains c) = true) :
    (runScript pcol df).2 = some ("top10_bar_chart", "NameError", "plt") ∧
    (runScript pcol df).1 =
      ["sidebar_slider", "countries_multiselect", "apply_filters",
       "data_table", "summary_metrics"] ∧
    "plt" ∉ boundNames ∧
    "histogram" ∉ (runScript pcol df).1 ∧
    "pivot_table" ∉ (runScript pcol df).1 ∧
    "category_encoding" ∉ (runScript pcol df).1 ∧
    "category_counts" ∉ (runScript pcol df).1 ∧
    "bubble_map" ∉ (runScript pcol df).1 ∧
    "csv_export" ∉ (runScript pcol df).1 := by
  have hc : df.cols.contains pcol = true :=
    validation_pass_contains df.cols hval pcol hpcol
  have h1 : slider_step pcol df = none := by
    rw [slider_step, if_pos hc, hrows, if_neg Bool.false_ne_true]
  have h2 : countries_step df = none := by
    rw [countries_step, if_pos hcountry, if_pos hdefaults]
  have h3 : column_step ["Country"] df = none := by
    simp only [column_step, List.find?_cons, hcountry, Bool.not_true,
      List.find?_nil]
  have h4 : name_step "plt" (fun _ => none) df = some ("NameError", "plt") :=
    rfl
  have hrun : runScript pcol df =
      (["sidebar_slider", "countries_multiselect", "apply_filters",
        "data_table", "summary_metrics"],
       some ("top10_bar_chart", "NameError", "plt")) := by
    rw [runScript, hval, if_neg Bool.false_ne_true]
    simp only [scriptSteps, runSteps, h1, h2, h3, h4]
  rw [hrun]
  refine ⟨rfl, rfl, by decide, by decide, by decide, by decide, by decide,
    by decide, by decide⟩

/-- A dataset with all ten input columns and one row per default country:
its sidebar statements all succeed. -/
def defaultRows : List Row :=
  [⟨"New York", "United States of America", some 40, some (-74), 60, 1, 30, 10, 50, "Moderate"⟩,
   ⟨"Beijing", "China", some 39, some 116, 150, 2, 40, 30, 140, "Unhealthy for Sensitive Groups"⟩,
   ⟨"Sao Paulo", "Brazil", some (-23), some (-46), 45, 1, 25, 8, 35, "Good"⟩,
   ⟨"Rome", "Italy", some 41, some 12, 70, 1, 50, 20, 60, "Moderate"⟩,
   ⟨"Moscow", "Russian Federation", some 55, some 37, 55, 1, 35, 12, 45, "Moderate"⟩,
   ⟨"Paris", "France", some 48, some 2, 65, 1, 45, 15, 55, "Moderate"⟩]

def fullFrame : RawFrame := ⟨claimedRequiredCols, defaultRows⟩

/-- Witness for C10 (amended): a dataset with all ten columns, non-empty, with
the six default countries present, passes validation and the session fails at
the top-10 chart with NameError on plt, running nothing after it. -/
theorem script_halts_at_top10_witness :
    (validationHalts fullFrame.cols = false ∧
     "AQI Value" ∈ required_cols ∧
     fullFrame.rows.isEmpty = false ∧
     fullFrame.cols.contains "Country" = true ∧
     multiselect_defaults.all
       (fun c => (fullFrame.rows.map Row.country).contains c) = true) ∧
    ((runScript "AQI Value" fullFrame).2 =
       some ("top10_bar_chart", "NameError", "plt") ∧
     (runScript "AQI Value" fullFrame).1 =
       ["sidebar_slider", "countries_multiselect", "apply_filters",
        "data_table", "summary_metrics"] ∧
     "plt" ∉ boundNames ∧
     "histogram" ∉ (runScript "AQI Value" fullFrame).1 ∧
     "pivot_table" ∉ (runScript "AQI Value" fullFrame).1 ∧
     "category_encoding" ∉ (runScript "AQI Value" fullFrame).1 ∧
     "category_counts" ∉ (runScript "AQI Value" fullFrame).1 ∧
     "bubble_map" ∉ (runScript "AQI Value" fullFrame).1 ∧
     "csv_export" ∉ (runScript "AQI Value" fullFrame).1) :=
  ⟨⟨rfl, by decide, rfl, rfl, rfl⟩,
   script_halts_at_top10 "AQI Value" fullFrame rfl (by decide) rfl rfl rfl⟩
